import Mathlib

/-!
Verification of the chunked parallel video-segmentation pipeline of
`jigglewiggle-deployed` (files `segmentation/modal_sam2.py` and
`segmentation/runpod_sam2.py`).

The shallow embedding below translates, from the Python source:
  * the chunk partitioner of `modal_sam2.py` (`SAM2Model.segment`, the
    `num_chunks` / `frames_per_chunk` / slicing loop),
  * the chunk dispatcher (`segment_chunk.local` vs `segment_chunk.map`),
  * the mask-rendering loop of `SAM2Model.segment_chunk`,
  * the control flow of both request handlers (`SAM2Model.segment` and
    `segment_video`), with the external collaborators (base64 decode,
    ffmpeg probe/extract/encode, the SAM2 predictor) abstracted as
    explicit environment inputs, and
  * the data-URL comma-stripping performed on `video_base64`.

Frames and PNG mask buffers are abstracted as `Nat` tokens: the pipeline
never inspects their contents, it only moves them around.
-/

/-- Exact ceiling division on naturals: for `b > 0`, `ceilDiv a b = ⌈a / b⌉`.
This models Python's `math.ceil(num_frames / num_chunks)`. -/
def ceilDiv (a b : Nat) : Nat := (a + b - 1) / b

theorem ceilDiv_zero_left (b : Nat) : ceilDiv 0 b = 0 := by
  unfold ceilDiv
  cases b with
  | zero => rfl
  | succ b => simp [Nat.succ_sub_one, Nat.div_eq_of_lt (Nat.lt_succ_self b)]

theorem ceilDiv_pos {a b : Nat} (hb : 0 < b) (ha : 0 < a) : 0 < ceilDiv a b := by
  unfold ceilDiv
  have h1 : b ≤ a + b - 1 := by omega
  exact Nat.div_pos h1 hb

/-- Covering bound `a ≤ ceilDiv a b * b`: the chunks cover all frames. -/
theorem le_ceilDiv_mul {a b : Nat} (hb : 0 < b) : a ≤ ceilDiv a b * b := by
  unfold ceilDiv
  have hmod := Nat.div_add_mod (a + b - 1) b
  have hlt : (a + b - 1) % b < b := Nat.mod_lt _ hb
  have hcomm : (a + b - 1) / b * b = b * ((a + b - 1) / b) := Nat.mul_comm _ _
  omega

theorem ceilDiv_le {a b m : Nat} (hb : 0 < b) (h : a ≤ b * m) : ceilDiv a b ≤ m := by
  unfold ceilDiv
  have h5 : (a + b - 1) / b < m + 1 := by
    apply (Nat.div_lt_iff_lt_mul hb).mpr
    have h6 : (m + 1) * b = b * m + b := by ring
    omega
  omega

theorem ceilDiv_one_of_le {a b : Nat} (hb : 0 < b) (h1 : 1 ≤ a) (h2 : a ≤ b) :
    ceilDiv a b = 1 := by
  unfold ceilDiv
  have hlo : 1 * b ≤ a + b - 1 := by omega
  have hhi : a + b - 1 < 2 * b := by omega
  have hle : 1 ≤ (a + b - 1) / b := (Nat.le_div_iff_mul_le hb).mpr hlo
  have hlt : (a + b - 1) / b < 2 := (Nat.div_lt_iff_lt_mul hb).mpr (by omega)
  omega

theorem ceilDiv_sub {a b : Nat} (hb : 0 < b) (h : b ≤ a) :
    ceilDiv a b = ceilDiv (a - b) b + 1 := by
  unfold ceilDiv
  have he : a + b - 1 = (a - b + b - 1) + b := by omega
  rw [he, Nat.add_div_right _ hb]

theorem two_le_ceilDiv {a b : Nat} (hb : 0 < b) (h : b < a) : 2 ≤ ceilDiv a b := by
  unfold ceilDiv
  exact (Nat.le_div_iff_mul_le hb).mpr (by omega)

/-- Fuel-driven slicing loop. `chunkListGo s fuel l` slices `l` into
contiguous pieces of `s` elements (the last may be shorter), mirroring
`for i in range(0, num_frames, frames_per_chunk): chunks.append(all_frame_bytes[i:i + frames_per_chunk])`
from `modal_sam2.py`. The fuel only makes the recursion structural; any
`fuel ≥ l.length` gives the loop's behaviour when `s ≥ 1`. -/
def chunkListGo {α : Type} (s : Nat) : Nat → List α → List (List α)
  | 0, _ => []
  | _, [] => []
  | fuel + 1, a :: t => (a :: t).take s :: chunkListGo s fuel ((a :: t).drop s)

/-- The slicing loop of `modal_sam2.py` lines 180-182. -/
def chunkList {α : Type} (s : Nat) (l : List α) : List (List α) :=
  chunkListGo s l.length l

theorem chunkListGo_nil {α : Type} (s fuel : Nat) :
    chunkListGo (α := α) s fuel [] = [] := by
  cases fuel <;> rfl

theorem chunkListGo_flatten {α : Type} (s : Nat) (hs : 0 < s) (fuel : Nat) :
    ∀ l : List α, l.length ≤ fuel → (chunkListGo s fuel l).flatten = l := by
  induction fuel with
  | zero =>
    intro l h
    have : l = [] := List.eq_nil_of_length_eq_zero (Nat.le_zero.mp h)
    subst this
    rfl
  | succ fuel ih =>
    intro l h
    cases l with
    | nil => rfl
    | cons a t =>
      simp only [chunkListGo, List.flatten_cons]
      rw [ih ((a :: t).drop s)
        (by simp only [List.length_drop, List.length_cons] at h ⊢; omega)]
      exact List.take_append_drop s (a :: t)

theorem chunkListGo_length {α : Type} (s : Nat) (hs : 0 < s) (fuel : Nat) :
    ∀ l : List α, l.length ≤ fuel → (chunkListGo s fuel l).length = ceilDiv l.length s := by
  induction fuel with
  | zero =>
    intro l h
    have : l = [] := List.eq_nil_of_length_eq_zero (Nat.le_zero.mp h)
    subst this
    simp [chunkListGo, ceilDiv_zero_left]
  | succ fuel ih =>
    intro l h
    cases l with
    | nil => simp [chunkListGo_nil, ceilDiv_zero_left]
    | cons a t =>
      simp only [chunkListGo, List.length_cons]
      rw [ih ((a :: t).drop s)
        (by simp only [List.length_drop, List.length_cons] at h ⊢; omega)]
      simp only [List.length_drop, List.length_cons]
      rcases Nat.lt_or_ge (t.length + 1) s with hc | hc
      · -- whole list fits in one chunk
        have h0 : t.length + 1 - s = 0 := by omega
        rw [h0, ceilDiv_zero_left, ceilDiv_one_of_le hs (by omega) (by omega)]
      · rw [ceilDiv_sub hs hc]

theorem chunkListGo_getD {α : Type} (s : Nat) (hs : 0 < s) (fuel : Nat) :
    ∀ (l : List α) (i : Nat), l.length ≤ fuel →
      (chunkListGo s fuel l).getD i [] = (l.drop (i * s)).take s := by
  induction fuel with
  | zero =>
    intro l i h
    have : l = [] := List.eq_nil_of_length_eq_zero (Nat.le_zero.mp h)
    subst this
    simp [chunkListGo]
  | succ fuel ih =>
    intro l i h
    cases l with
    | nil => simp [chunkListGo_nil]
    | cons a t =>
      cases i with
      | zero => simp [chunkListGo]
      | succ i =>
        simp only [chunkListGo, List.getD_cons_succ]
        rw [ih ((a :: t).drop s) i
          (by simp only [List.length_drop, List.length_cons] at h ⊢; omega)]
        rw [List.drop_drop]
        have he : s + i * s = (i + 1) * s := by ring
        rw [he]

/-! ## Chunk partitioner (`modal_sam2.py` lines 176-184) -/

/-- Constant `MAX_PARALLEL_CHUNKS = 8` from `modal_sam2.py` line 32. -/
def MAX_PARALLEL_CHUNKS : Nat := 8

/-- Source line 178: `num_chunks = min(MAX_PARALLEL_CHUNKS, num_frames)`. -/
def num_chunks (num_frames : Nat) : Nat := min MAX_PARALLEL_CHUNKS num_frames

/-- Source line 179: `frames_per_chunk = math.ceil(num_frames / num_chunks)`. -/
def frames_per_chunk (num_frames : Nat) : Nat :=
  ceilDiv num_frames (num_chunks num_frames)

/-- The chunk list built by `modal_sam2.py` lines 180-182: the frame list
sliced into contiguous pieces of `frames_per_chunk` frames each. -/
def modalChunks (l : List Nat) : List (List Nat) :=
  chunkList (frames_per_chunk l.length) l

/-- The runpod wrapper performs no partitioning: lines 100-118 run a single
`init_state` / `propagate_in_video` pass over the entire extracted frame
sequence, i.e. the whole video is processed as one unit. -/
def runpodChunks (l : List Nat) : List (List Nat) := [l]

/-- Number of SAM2 tracking states created by the modal wrapper: one
`init_state` per chunk (inside `segment_chunk`, line 77). -/
def modalTrackingStates (l : List Nat) : Nat := (modalChunks l).length

/-- Number of SAM2 tracking states created by the runpod wrapper: the one
`init_state` call at `runpod_sam2.py` line 101. -/
def runpodTrackingStates (l : List Nat) : Nat := (runpodChunks l).length

/-! ## Chunk dispatcher (`modal_sam2.py` lines 186-201) -/

/-- Which dispatch path `SAM2Model.segment` takes for the chunk list. -/
inductive DispatchPath : Type
  | localPath   -- `self.segment_chunk.local(chunks[0], ...)`, line 189
  | pooledPath  -- `self.segment_chunk.map(chunks, ...)`, lines 192-197
deriving DecidableEq

/-- The dispatcher of `modal_sam2.py` lines 186-201: a single chunk is
processed in-process, otherwise `.map` fans the chunks out over the pool
(the platform primitive returns results in input order) and the results
are flattened in chunk order by the `extend` loop of lines 199-201. -/
def dispatch (wk : List Nat → List Nat) (chunks : List (List Nat)) :
    DispatchPath × List Nat :=
  match chunks with
  | [c] => (DispatchPath.localPath, wk c)
  | cs => (DispatchPath.pooledPath, (cs.map wk).flatten)

theorem dispatch_snd (wk : List Nat → List Nat) (cs : List (List Nat)) :
    (dispatch wk cs).2 = (cs.map wk).flatten := by
  match cs with
  | [] => rfl
  | [c] => simp [dispatch]
  | a :: b :: t => rfl

/-! ## Segmentation worker (`modal_sam2.py` `segment_chunk`, lines 50-112)

The SAM2 predictor itself is an external collaborator; its output for a
chunk is abstracted as `segs : Nat → Option (List (Nat → Nat → Bool))`
mapping a local frame index to the propagated object masks for that frame
(`video_segments` in the source, built at lines 89-96), `none` when
propagation yielded nothing for that index. A mask is a boolean bitmap
indexed `(row, column)`. Pixels are 3-element channel lists. -/

/-- A `height × width` image of 3-channel pixels, row-major, mirroring
`np.zeros((height, width, 3))` followed by per-pixel writes. -/
def mkImage (height width : Nat) (pix : Nat → Nat → List Nat) :
    List (List (List Nat)) :=
  (List.range height).map (fun y => (List.range width).map (fun x => pix y x))

/-- The mask-rendering loop body of `segment_chunk`, lines 100-109:
start from an all-zeros `(height, width, 3)` image; if `frame_idx` is in
`video_segments`, set every pixel covered by any object's mask to
`[255, 255, 255]`. -/
def renderMaskFrame (segs : Nat → Option (List (Nat → Nat → Bool)))
    (width height frame_idx : Nat) : List (List (List Nat)) :=
  match segs frame_idx with
  | none => mkImage height width (fun _ _ => [0, 0, 0])
  | some masks =>
      mkImage height width
        (fun y x => if masks.any (fun m => m y x) then [255, 255, 255] else [0, 0, 0])

/-- Rendering stage of `SAM2Model.segment_chunk`: one rendered mask image per
input frame, `for frame_idx in range(len(frame_jpegs))` (line 100). -/
def segment_chunk (segs : Nat → Option (List (Nat → Nat → Bool)))
    (frame_jpegs : List Nat) (width height : Nat) : List (List (List (List Nat))) :=
  (List.range frame_jpegs.length).map (fun idx => renderMaskFrame segs width height idx)

/-! ## Data-URL comma stripping (`modal_sam2.py` 131-132, `runpod_sam2.py` 57-58) -/

/-- Everything after the first `','`, i.e. Python `s.split(",", 1)[1]`. -/
def afterFirstComma : List Char → List Char
  | [] => []
  | c :: rest => if c = ',' then rest else afterFirstComma rest

/-- Lines 131-132 of `modal_sam2.py`:
`if "," in video_b64: video_b64 = video_b64.split(",", 1)[1]`. -/
def stripDataUrlModal (s : List Char) : List Char :=
  if ',' ∈ s then afterFirstComma s else s

/-- Lines 57-58 of `runpod_sam2.py`, the same two statements. -/
def stripDataUrlRunpod (s : List Char) : List Char :=
  if ',' ∈ s then afterFirstComma s else s

/-! ## Request handlers

The external collaborators (base64 codec, temp dirs, ffmpeg probe /
extract / encode, the GPU workers) are modelled by an environment record
supplying each collaborator's outcome for this request; the handler
definitions reproduce only the control flow actually written in the two
Python files. `Outcome.raised` marks a Python exception escaping the
handler (there is no try/except in either handler), `Outcome.resp` a
dictionary returned to the caller. The `List Effect` component records
which processing steps were reached, in order. -/

inductive Effect : Type
  | b64decode     -- base64.b64decode
  | mkTemp        -- tempfile.mkdtemp + write of input.mp4
  | probeVideo    -- ffmpeg.probe + stream/fps parsing
  | extractFrames -- ffmpeg frame extraction
  | runWorkers    -- SAM2 inference (chunk dispatch / single pass)
  | encodeVideo   -- final ffmpeg encode
deriving DecidableEq

inductive Outcome (ρ : Type) : Type
  | resp (r : ρ)
  | raised (msg : String)
deriving DecidableEq

/-- Success/error dictionaries returnable by `SAM2Model.segment`
(`modal_sam2.py` lines 129, 164, 231-238). An `err` dictionary has no
`mask_video_base64` key. -/
inductive ModalResp : Type
  | err (msg : String)
  | ok (mask_video_base64 : String) (numFrames : Nat) (fps : Nat) (chunksField : Nat)
deriving DecidableEq

/-- Collaborator outcomes for one `SAM2Model.segment` request.
`request` is the `video_base64` field (`none` = key absent); `probe` is
`some fps` when `ffmpeg.probe` succeeds and a video stream exists;
`frames` the extracted frame buffers; `encodeRc` / `encodeStderr` the
final ffmpeg returncode and stderr; `encodedB64` the base64 of the
encoded mask video when that step succeeds. -/
structure ModalEnv : Type where
  request : Option String
  decodeOk : Bool
  probe : Option Nat
  frames : List Nat
  width : Nat
  height : Nat
  encodeRc : Nat
  encodeStderr : String
  encodedB64 : String

/-- Python `s[-500:]`. -/
def last500 (s : String) : String := s.drop (s.length - 500)

/-- Control flow of `SAM2Model.segment` (`modal_sam2.py` lines 115-238).
Note lines 220-223: a non-zero encode returncode *raises*
`RuntimeError(f"ffmpeg failed: {result.stderr[-500:]}")`; there is no
surrounding try/except anywhere in the handler. -/
def modalSegment (env : ModalEnv) (wk : List Nat → List Nat) :
    Outcome ModalResp × List Effect :=
  let video_b64 := env.request.getD ("")            -- data.get("video_base64", "")
  if video_b64 = "" then
    (Outcome.resp (ModalResp.err ("No video_base64 provided")), [])
  else
    let _stripped := stripDataUrlModal video_b64.data  -- lines 131-132
    if !env.decodeOk then
      (Outcome.raised ("binascii.Error"), [Effect.b64decode])
    else
      match env.probe with
      | none =>
        (Outcome.raised ("ffmpeg probe error"),
         [Effect.b64decode, Effect.mkTemp, Effect.probeVideo])
      | some fps =>
        if env.frames = [] then
          (Outcome.resp (ModalResp.err ("No frames extracted from video")),
           [Effect.b64decode, Effect.mkTemp, Effect.probeVideo, Effect.extractFrames])
        else
          let chunks := modalChunks env.frames
          let _all_mask_pngs := (dispatch wk chunks).2
          if env.encodeRc ≠ 0 then
            (Outcome.raised ("ffmpeg failed: " ++ last500 env.encodeStderr),
             [Effect.b64decode, Effect.mkTemp, Effect.probeVideo,
              Effect.extractFrames, Effect.runWorkers, Effect.encodeVideo])
          else
            (Outcome.resp
              (ModalResp.ok env.encodedB64 env.frames.length fps chunks.length),
             [Effect.b64decode, Effect.mkTemp, Effect.probeVideo,
              Effect.extractFrames, Effect.runWorkers, Effect.encodeVideo])

/-- Success/error dictionaries returnable by `segment_video`
(`runpod_sam2.py` lines 54, 82, 156, 161-165); no `chunks` key exists. -/
inductive RunpodResp : Type
  | err (msg : String)
  | ok (mask_video_base64 : String) (numFrames : Nat) (fps : Nat)
deriving DecidableEq

/-- Collaborator outcomes for one `segment_video` request. `extractOk`
models the `subprocess.run(..., check=True)` extraction call (line 70),
which raises `CalledProcessError` on failure. -/
structure RunpodEnv : Type where
  request : Option String
  decodeOk : Bool
  extractOk : Bool
  frames : List Nat
  probe : Option Nat
  encodeRc : Nat
  encodeStderr : String
  encodedB64 : String

/-- Control flow of `segment_video` (`runpod_sam2.py` lines 41-165).
In this wrapper the probe runs *after* inference/rendering (line 138),
and a failing encode *returns* `{"error": f"ffmpeg encode failed: {result.stderr[-500:]}"}`
(lines 154-156) instead of raising. -/
def runpodSegment (env : RunpodEnv) : Outcome RunpodResp × List Effect :=
  let video_b64 := env.request.getD ("")
  if video_b64 = "" then
    (Outcome.resp (RunpodResp.err ("No video_base64 provided")), [])
  else
    let _stripped := stripDataUrlRunpod video_b64.data  -- lines 57-58
    if !env.decodeOk then
      (Outcome.raised ("binascii.Error"), [Effect.b64decode])
    else if !env.extractOk then
      (Outcome.raised ("subprocess.CalledProcessError"),
       [Effect.b64decode, Effect.mkTemp, Effect.extractFrames])
    else if env.frames = [] then
      (Outcome.resp (RunpodResp.err ("No frames extracted from video")),
       [Effect.b64decode, Effect.mkTemp, Effect.extractFrames])
    else
      match env.probe with
      | none =>
        (Outcome.raised ("ffmpeg probe error"),
         [Effect.b64decode, Effect.mkTemp, Effect.extractFrames,
          Effect.runWorkers, Effect.probeVideo])
      | some fps =>
        if env.encodeRc ≠ 0 then
          (Outcome.resp
            (RunpodResp.err ("ffmpeg encode failed: " ++ last500 env.encodeStderr)),
           [Effect.b64decode, Effect.mkTemp, Effect.extractFrames,
            Effect.runWorkers, Effect.probeVideo, Effect.encodeVideo])
        else
          (Outcome.resp (RunpodResp.ok env.encodedB64 env.frames.length fps),
           [Effect.b64decode, Effect.mkTemp, Effect.extractFrames,
            Effect.runWorkers, Effect.probeVideo, Effect.encodeVideo])

/-! ## Derived facts about the partitioner -/

theorem num_chunks_pos {N : Nat} (h : 0 < N) : 0 < num_chunks N := by
  unfold num_chunks MAX_PARALLEL_CHUNKS
  omega

theorem frames_per_chunk_pos {N : Nat} (h : 0 < N) : 0 < frames_per_chunk N :=
  ceilDiv_pos (num_chunks_pos h) h

theorem modalChunks_flatten {l : List Nat} (hl : l ≠ []) :
    (modalChunks l).flatten = l := by
  have hN : 0 < l.length := List.length_pos.mpr hl
  exact chunkListGo_flatten _ (frames_per_chunk_pos hN) _ l le_rfl

theorem modalChunks_length {l : List Nat} (hl : l ≠ []) :
    (modalChunks l).length = ceilDiv l.length (frames_per_chunk l.length) := by
  have hN : 0 < l.length := List.length_pos.mpr hl
  exact chunkListGo_length _ (frames_per_chunk_pos hN) _ l le_rfl

theorem modalChunks_getD {l : List Nat} (hl : l ≠ []) (i : Nat) :
    (modalChunks l).getD i []
      = (l.drop (i * frames_per_chunk l.length)).take (frames_per_chunk l.length) := by
  have hN : 0 < l.length := List.length_pos.mpr hl
  exact chunkListGo_getD _ (frames_per_chunk_pos hN) _ l i le_rfl

/-- Element of a contiguous slice, as an element of the underlying list. -/
theorem take_drop_getD (l : List Nat) (m s r d : Nat) (hr : r < s) :
    ((l.drop m).take s).getD r d = l.getD (m + r) d := by
  rw [List.getD_eq_getElem?_getD, List.getD_eq_getElem?_getD]
  rw [List.getElem?_take, if_pos hr, List.getElem?_drop]

/-- Flattening length-preserving per-chunk results preserves total length. -/
theorem flatten_map_length (wk : List Nat → List Nat)
    (hw : ∀ c, (wk c).length = c.length) (cs : List (List Nat)) :
    ((cs.map wk).flatten).length = cs.flatten.length := by
  induction cs with
  | nil => rfl
  | cons a t ih =>
    simp only [List.map_cons, List.flatten_cons, List.length_append, ih, hw]

/-- Index correspondence for the flattened chunk results: entry `i` of the
flattened output comes from chunk `i / s` at intra-chunk position `i % s`,
for any length-preserving per-chunk worker. -/
theorem chunkListGo_map_flatten_getD (wk : List Nat → List Nat)
    (hw : ∀ c, (wk c).length = c.length) (s : Nat) (hs : 0 < s) (fuel : Nat) :
    ∀ (l : List Nat) (i d : Nat), l.length ≤ fuel → i < l.length →
      ((chunkListGo s fuel l).map wk).flatten.getD i d
        = (wk ((chunkListGo s fuel l).getD (i / s) [])).getD (i % s) d := by
  induction fuel with
  | zero =>
    intro l i d h hi
    have : l = [] := List.eq_nil_of_length_eq_zero (Nat.le_zero.mp h)
    subst this
    simp at hi
  | succ fuel ih =>
    intro l i d h hi
    cases l with
    | nil => simp at hi
    | cons a t =>
      simp only [chunkListGo, List.map_cons, List.flatten_cons]
      have hlen : (wk ((a :: t).take s)).length = min s (t.length + 1) := by
        rw [hw]
        simp [List.length_take]
      rcases Nat.lt_or_ge i s with hi_lt | hi_ge
      · have hmin : i < min s (t.length + 1) := by
          simp only [List.length_cons] at hi
          omega
        rw [List.getD_append _ _ _ _ (by omega)]
        rw [Nat.div_eq_of_lt hi_lt, Nat.mod_eq_of_lt hi_lt]
        rfl
      · have hsN : s ≤ t.length + 1 := by
          simp only [List.length_cons] at hi
          omega
        have hminS : min s (t.length + 1) = s := Nat.min_eq_left hsN
        rw [List.getD_append_right _ _ _ _ (by omega)]
        rw [hlen, hminS]
        have hrec := ih ((a :: t).drop s) (i - s) d
          (by simp only [List.length_drop, List.length_cons] at h ⊢; omega)
          (by simp only [List.length_drop, List.length_cons] at hi ⊢; omega)
        rw [hrec]
        rw [Nat.div_eq_sub_div hs hi_ge, Nat.mod_eq_sub_mod hi_ge]
        rfl

/-!
## Claim C1

The spec asserts the partition always yields `min(K, num_frames)` chunks
and that the response `chunks` field equals that value. The code slices
by `frames_per_chunk = ceil(N / min(K, N))`, which yields
`ceil(N / frames_per_chunk)` chunks; at `N = 9` this is `5`, not
`min(8, 9) = 8`, and the `chunks` field reports `5`.
-/

/-- C1 counterexample: at `num_frames = 9` the code produces 5 chunks of
sizes `[2, 2, 2, 2, 1]`, not `min(8, 9) = 8` chunks, and the success
response's `chunks` field is 5. -/
theorem C1_cex :
    num_chunks (List.range 9).length = 8 ∧
    (modalChunks (List.range 9)).length = 5 ∧
    (modalChunks (List.range 9)).map List.length = [2, 2, 2, 2, 1] ∧
    (modalChunks (List.range 9)).length ≠ num_chunks (List.range 9).length ∧
    (modalSegment ⟨some ("v"), true, some 30, List.range 9, 4, 4, 0, "", "out"⟩
        (fun c => c)).1
      = Outcome.resp (ModalResp.ok ("out") 9 30 5) := by
  decide

/-- C1 (amended): for `num_frames ≥ 1` and `K = 8`, with
`s = frames_per_chunk = ceil(N / min(K, N))`, the partition produces
exactly `ceil(N / s)` chunks (which is at most `min(K, N)`, not always
equal to it); every chunk except possibly the last has exactly `s`
frames, the chunk at index `i` has `min s (N - i*s)` frames, and the
`chunks` field of the success response equals the actual number of chunks
produced. -/
theorem C1_amended (env : ModalEnv) (wk : List Nat → List Nat) (fps i : Nat)
    (hreq : env.request.getD ("") ≠ "") (hdec : env.decodeOk = true)
    (hpr : env.probe = some fps) (hfr : env.frames ≠ [])
    (henc : env.encodeRc = 0) :
    (modalChunks env.frames).length
        = ceilDiv env.frames.length (frames_per_chunk env.frames.length) ∧
    (modalChunks env.frames).length ≤ num_chunks env.frames.length ∧
    ((modalChunks env.frames).getD i []).length
        = min (frames_per_chunk env.frames.length)
            (env.frames.length - i * frames_per_chunk env.frames.length) ∧
    (i + 1 < (modalChunks env.frames).length →
      ((modalChunks env.frames).getD i []).length
        = frames_per_chunk env.frames.length) ∧
    (modalSegment env wk).1
        = Outcome.resp (ModalResp.ok env.encodedB64 env.frames.length fps
            (modalChunks env.frames).length) := by
  have hN : 0 < env.frames.length := List.length_pos.mpr hfr
  have hs : 0 < frames_per_chunk env.frames.length := frames_per_chunk_pos hN
  have h1 := modalChunks_length hfr
  have h2 : (modalChunks env.frames).length ≤ num_chunks env.frames.length := by
    rw [h1]
    exact ceilDiv_le hs (le_ceilDiv_mul (num_chunks_pos hN))
  have h3 : ((modalChunks env.frames).getD i []).length
      = min (frames_per_chunk env.frames.length)
          (env.frames.length - i * frames_per_chunk env.frames.length) := by
    rw [modalChunks_getD hfr]
    simp [List.length_take, List.length_drop]
  refine ⟨h1, h2, h3, ?_, ?_⟩
  · intro h4
    rw [h1] at h4
    have h5 : ¬ (env.frames.length ≤ frames_per_chunk env.frames.length * (i + 1)) := by
      intro hle
      exact absurd (ceilDiv_le hs hle) (by omega)
    have h6 : frames_per_chunk env.frames.length * (i + 1)
        = i * frames_per_chunk env.frames.length + frames_per_chunk env.frames.length := by
      ring
    rw [h3]
    omega
  · simp [modalSegment, hreq, hdec, hpr, hfr, henc]

/-- C1 witness: a concrete 4-frame request going through the success
path, instantiating the amended theorem. -/
theorem C1_w :
    (modalChunks [1, 2, 3, 4]).length = ceilDiv 4 (frames_per_chunk 4) ∧
    (modalChunks [1, 2, 3, 4]).length ≤ num_chunks 4 ∧
    ((modalChunks [1, 2, 3, 4]).getD 0 []).length
        = min (frames_per_chunk 4) (4 - 0 * frames_per_chunk 4) ∧
    (0 + 1 < (modalChunks [1, 2, 3, 4]).length →
      ((modalChunks [1, 2, 3, 4]).getD 0 []).length = frames_per_chunk 4) ∧
    (modalSegment ⟨some ("v"), true, some 24, [1, 2, 3, 4], 2, 2, 0, "", "mb"⟩
        (fun c => c)).1
      = Outcome.resp (ModalResp.ok ("mb") 4 24 (modalChunks [1, 2, 3, 4]).length) :=
  C1_amended ⟨some ("v"), true, some 24, [1, 2, 3, 4], 2, 2, 0, "", "mb"⟩
    (fun c => c) 24 0 (by decide) rfl rfl (by decide) rfl

/-!
## Claim C2

The spec asserts the two wrappers differ only in the platform
orchestration primitive, and in particular that *both* partition the
frames into chunks, each with its own independently seeded tracking
state. In fact only `modal_sam2.py` partitions; `runpod_sam2.py` runs
one `init_state`/`propagate_in_video` pass over the whole frame sequence
(a single tracking state), so the pipelines differ structurally.
-/

/-- C2 counterexample: on a 16-frame video the modal wrapper partitions
into 8 chunks and seeds 8 tracking states, while the runpod wrapper
processes a single unit with exactly 1 tracking state. -/
theorem C2_cex :
    (modalChunks (List.range 16)).length = 8 ∧
    (runpodChunks (List.range 16)).length = 1 ∧
    modalTrackingStates (List.range 16) = 8 ∧
    runpodTrackingStates (List.range 16) = 1 ∧
    modalChunks (List.range 16) ≠ runpodChunks (List.range 16) := by
  decide

/-- C2 (amended): both wrappers cover the whole frame sequence, but they
do not differ only in the dispatch primitive: the runpod wrapper always
processes the frames as one unit with exactly one tracking state,
whereas the modal wrapper partitions them and — whenever the video has
at least 9 frames — creates at least two chunks, each with its own
tracking state. -/
theorem C2_amended (l : List Nat) (h9 : 9 ≤ l.length) :
    runpodTrackingStates l = 1 ∧
    (runpodChunks l).flatten = l ∧
    (modalChunks l).flatten = l ∧
    2 ≤ modalTrackingStates l := by
  have hl : l ≠ [] := by
    intro h
    subst h
    simp at h9
  have hN : 0 < l.length := by omega
  refine ⟨rfl, by simp [runpodChunks], modalChunks_flatten hl, ?_⟩
  unfold modalTrackingStates
  rw [modalChunks_length hl]
  have hm : num_chunks l.length = 8 := by
    unfold num_chunks MAX_PARALLEL_CHUNKS
    omega
  have hsfc : frames_per_chunk l.length = ceilDiv l.length 8 := by
    unfold frames_per_chunk
    rw [hm]
  rw [hsfc]
  have hs : 0 < ceilDiv l.length 8 := ceilDiv_pos (by norm_num) hN
  have hlt : ceilDiv l.length 8 < l.length := by
    unfold ceilDiv
    have := (Nat.div_lt_iff_lt_mul (show 0 < 8 by norm_num)).mpr
      (show l.length + 8 - 1 < l.length * 8 by omega)
    exact this
  exact two_le_ceilDiv hs hlt

/-- C2 witness: a 9-frame video, where modal creates 5 chunks (hence 5
tracking states) and runpod exactly one. -/
theorem C2_w :
    runpodTrackingStates (List.range 9) = 1 ∧
    (runpodChunks (List.range 9)).flatten = List.range 9 ∧
    (modalChunks (List.range 9)).flatten = List.range 9 ∧
    2 ≤ modalTrackingStates (List.range 9) :=
  C2_amended (List.range 9) (by decide)

/-!
## Claim C5

Chunks produced by the partitioner are the contiguous slices
`l[i*s : i*s + s]` in index order, and their concatenation reconstructs
the frame sequence exactly. (Pairwise disjointness and order
preservation are exactly the content of the slice identity: chunk `i`
is the sub-sequence from offset `i*s`, so distinct chunks cover
disjoint index ranges, in increasing order.)
-/

/-- C5: for every nonempty frame list, the concatenation of the chunks
in chunk-index order equals the original list, and chunk `i` is exactly
the contiguous, order-preserving slice of length (at most)
`frames_per_chunk` starting at offset `i * frames_per_chunk`. -/
theorem C5_thm (l : List Nat) (hl : l ≠ []) (i : Nat) :
    (modalChunks l).flatten = l ∧
    (modalChunks l).getD i []
      = (l.drop (i * frames_per_chunk l.length)).take (frames_per_chunk l.length) :=
  ⟨modalChunks_flatten hl, modalChunks_getD hl i⟩

/-- C5 witness at a concrete 3-frame list and chunk index 1. -/
theorem C5_w :
    (modalChunks [10, 20, 30]).flatten = [10, 20, 30] ∧
    (modalChunks [10, 20, 30]).getD 1 []
      = (([10, 20, 30] : List Nat).drop (1 * frames_per_chunk 3)).take
          (frames_per_chunk 3) :=
  C5_thm [10, 20, 30] (by decide) 1

/-!
## Claim C6

Dispatcher shortcut: exactly one chunk runs in-process
(`segment_chunk.local`), two or more use the pooled `.map` path.
-/

/-- C6: if the partition yields exactly one chunk the dispatcher takes
the synchronous in-process path, and if it yields two or more chunks it
takes the pooled map path. -/
theorem C6_thm (wk : List Nat → List Nat) (l : List Nat) :
    ((modalChunks l).length = 1 →
      (dispatch wk (modalChunks l)).1 = DispatchPath.localPath) ∧
    (2 ≤ (modalChunks l).length →
      (dispatch wk (modalChunks l)).1 = DispatchPath.pooledPath) := by
  cases hm : modalChunks l with
  | nil =>
    constructor
    · intro h
      simp at h
    · intro h
      simp at h
  | cons c t =>
    cases t with
    | nil =>
      constructor
      · intro _
        rfl
      · intro h
        simp at h
    | cons b t2 =>
      constructor
      · intro h
        simp at h
      · intro _
        rfl

/-- C6 witness: a single-frame video produces one chunk and the local
path is taken. -/
theorem C6_w :
    (dispatch (fun c => c) (modalChunks [5])).1 = DispatchPath.localPath :=
  (C6_thm (fun c => c) [5]).1 (by decide)

/-!
## Claim C4

Flattened dispatcher output: exactly `N` entries, entry `i` being the
worker's mask for source frame `i` (the result of chunk `i / s` at
intra-chunk position `i % s`, which is source frame `i`). Chunk
completion order is irrelevant in the embedding because the platform's
`.map` primitive — an external collaborator — returns results in input
order, which is what the flattening loop of lines 199-201 consumes.
-/

theorem dispatch_modalChunks_snd (wk : List Nat → List Nat) (l : List Nat) :
    (dispatch wk (modalChunks l)).2 = ((modalChunks l).map wk).flatten :=
  dispatch_snd wk (modalChunks l)

/-- C4: for every length-preserving per-chunk worker and every nonempty
frame list, the flattened result has exactly `N` entries; entry `i` is
the worker's output for chunk `i / s` at position `i % s`; and that
position of that chunk holds exactly source frame `i`. -/
theorem C4_thm (wk : List Nat → List Nat)
    (hw : ∀ c, (wk c).length = c.length)
    (l : List Nat) (i d : Nat) (hi : i < l.length) :
    (dispatch wk (modalChunks l)).2.length = l.length ∧
    (dispatch wk (modalChunks l)).2.getD i d
      = (wk ((modalChunks l).getD (i / frames_per_chunk l.length) [])).getD
          (i % frames_per_chunk l.length) d ∧
    ((modalChunks l).getD (i / frames_per_chunk l.length) []).getD
        (i % frames_per_chunk l.length) d
      = l.getD i d := by
  have hl : l ≠ [] := by
    intro h
    subst h
    simp at hi
  have hN : 0 < l.length := List.length_pos.mpr hl
  have hs : 0 < frames_per_chunk l.length := frames_per_chunk_pos hN
  refine ⟨?_, ?_, ?_⟩
  · rw [dispatch_modalChunks_snd, flatten_map_length wk hw, modalChunks_flatten hl]
  · rw [dispatch_modalChunks_snd]
    exact chunkListGo_map_flatten_getD wk hw _ hs _ l i d le_rfl hi
  · rw [modalChunks_getD hl]
    rw [take_drop_getD l _ _ _ d (Nat.mod_lt i hs)]
    congr 1
    have := Nat.div_add_mod i (frames_per_chunk l.length)
    have hcomm : i / frames_per_chunk l.length * frames_per_chunk l.length
        = frames_per_chunk l.length * (i / frames_per_chunk l.length) := Nat.mul_comm _ _
    omega

/-- C4 witness: a 9-frame list with the identity worker; entry 5 of the
flattened output is chunk 2 position 1, which is source frame 5. -/
theorem C4_w :
    (dispatch (fun c => c) (modalChunks (List.range 9))).2.length
        = (List.range 9).length ∧
    (dispatch (fun c => c) (modalChunks (List.range 9))).2.getD 5 99
      = ((fun (c : List Nat) => c)
          ((modalChunks (List.range 9)).getD (5 / frames_per_chunk (List.range 9).length) [])).getD
          (5 % frames_per_chunk (List.range 9).length) 99 ∧
    ((modalChunks (List.range 9)).getD (5 / frames_per_chunk (List.range 9).length) []).getD
        (5 % frames_per_chunk (List.range 9).length) 99
      = (List.range 9).getD 5 99 :=
  C4_thm (fun c => c) (fun _ => rfl) (List.range 9) 5 99 (by decide)

/-!
## Claim C7

The worker returns one rendered mask image per input frame, in input
order; a frame index absent from `video_segments` renders as an
all-black `(height, width, 3)` image.
-/

/-- C7: `segment_chunk` produces exactly one rendered image per input
frame; the image at position `j` is the rendering for local frame `j`
(same order as the input); and when propagation yielded nothing for
frame `j` that image is the all-black image, which has `height` rows,
each of `width` pixels, every pixel being the 3-channel black
`[0, 0, 0]`. -/
theorem C7_thm (segs : Nat → Option (List (Nat → Nat → Bool)))
    (frame_jpegs : List Nat) (width height j y x : Nat)
    (hj : j < frame_jpegs.length) :
    (segment_chunk segs frame_jpegs width height).length = frame_jpegs.length ∧
    (segment_chunk segs frame_jpegs width height).getD j []
      = renderMaskFrame segs width height j ∧
    (segs j = none →
      (segment_chunk segs frame_jpegs width height).getD j []
        = mkImage height width (fun _ _ => [0, 0, 0])) ∧
    (mkImage height width (fun _ _ => ([0, 0, 0] : List Nat))).length = height ∧
    (y < height →
      ((mkImage height width (fun _ _ => ([0, 0, 0] : List Nat))).getD y []).length
        = width) ∧
    (y < height → x < width →
      (((mkImage height width (fun _ _ => ([0, 0, 0] : List Nat))).getD y []).getD x [])
        = [0, 0, 0]) := by
  have h2 : (segment_chunk segs frame_jpegs width height).getD j []
      = renderMaskFrame segs width height j := by
    unfold segment_chunk
    rw [List.getD_eq_getElem?_getD]
    simp [hj]
  refine ⟨by simp [segment_chunk], h2, ?_, by simp [mkImage], ?_, ?_⟩
  · intro h0
    rw [h2]
    unfold renderMaskFrame
    rw [h0]
  · intro hy
    unfold mkImage
    rw [List.getD_eq_getElem?_getD]
    simp [hy]
  · intro hy hx
    unfold mkImage
    rw [List.getD_eq_getElem?_getD]
    simp [hy]
    simp [List.getElem?_replicate, hx]

/-- C7 witness: a 2-frame chunk whose propagation produced nothing for
frame 1; its rendering is the all-black 2×3 image. -/
theorem C7_w :
    (segment_chunk (fun _ => none) [4, 7] 3 2).length = ([4, 7] : List Nat).length ∧
    (segment_chunk (fun _ => none) [4, 7] 3 2).getD 1 []
      = renderMaskFrame (fun _ => none) 3 2 1 ∧
    ((fun (_ : Nat) => (none : Option (List (Nat → Nat → Bool)))) 1 = none →
      (segment_chunk (fun _ => none) [4, 7] 3 2).getD 1 []
        = mkImage 2 3 (fun _ _ => [0, 0, 0])) ∧
    (mkImage 2 3 (fun _ _ => ([0, 0, 0] : List Nat))).length = 2 ∧
    (0 < 2 →
      ((mkImage 2 3 (fun _ _ => ([0, 0, 0] : List Nat))).getD 0 []).length = 3) ∧
    (0 < 2 → 2 < 3 →
      (((mkImage 2 3 (fun _ _ => ([0, 0, 0] : List Nat))).getD 0 []).getD 2 [])
        = [0, 0, 0]) :=
  C7_thm (fun _ => none) [4, 7] 3 2 1 0 2 (by decide)

/-!
## Claim C3

The spec asserts every failure is caught at the request boundary and
converted to an `error` response. `modal_sam2.py` has no try/except:
its handler *raises* on probe failure and on a non-zero encode
returncode (line 223, `raise RuntimeError(...)`), so those failures
escape the handler. Only the empty-payload and zero-frames checks (and,
in runpod only, the encode failure) return error dictionaries.
-/

/-- C3 counterexample: a request that reaches the encode step of
`SAM2Model.segment` with a failing encoder makes the handler raise
`RuntimeError` instead of returning an error response. -/
theorem C3_cex :
    (modalSegment ⟨some ("v"), true, some 30, [7], 4, 4, 1, "boom", ""⟩
        (fun c => c)).1
      = Outcome.raised ("ffmpeg failed: boom") := by
  decide

/-- C3 (amended): the only error *responses* either handler returns are
the empty-payload and zero-frames ones, plus — in the runpod wrapper
only — the encode-failure one; a failing encode in the modal wrapper
raises `RuntimeError` with the stderr suffix instead of producing any
response (and probe, decode, extraction and worker failures likewise
escape as exceptions in both wrappers). -/
theorem C3_amended (menv : ModalEnv) (renv : RunpodEnv)
    (wk : List Nat → List Nat) (msg : String) (mfps rfps : Nat) :
    ((modalSegment menv wk).1 = Outcome.resp (ModalResp.err msg) →
      msg = "No video_base64 provided" ∨ msg = "No frames extracted from video") ∧
    (menv.request.getD ("") ≠ "" → menv.decodeOk = true →
      menv.probe = some mfps → menv.frames ≠ [] → menv.encodeRc ≠ 0 →
      (modalSegment menv wk).1
        = Outcome.raised ("ffmpeg failed: " ++ last500 menv.encodeStderr)) ∧
    (renv.request.getD ("") ≠ "" → renv.decodeOk = true →
      renv.extractOk = true → renv.frames ≠ [] → renv.probe = some rfps →
      renv.encodeRc ≠ 0 →
      (runpodSegment renv).1
        = Outcome.resp
            (RunpodResp.err ("ffmpeg encode failed: " ++ last500 renv.encodeStderr))) ∧
    ((runpodSegment renv).1 = Outcome.resp (RunpodResp.err msg) →
      msg = "No video_base64 provided" ∨ msg = "No frames extracted from video" ∨
      msg = "ffmpeg encode failed: " ++ last500 renv.encodeStderr) := by
  refine ⟨?_, ?_, ?_, ?_⟩
  · intro h
    by_cases h0 : menv.request.getD ("") = ""
    · simp [modalSegment, h0] at h
      left
      exact h.symm
    · cases hdec : menv.decodeOk
      · simp [modalSegment, h0, hdec] at h
      · cases hpr : menv.probe with
        | none => simp [modalSegment, h0, hdec, hpr] at h
        | some fpsv =>
          by_cases hfr : menv.frames = []
          · simp [modalSegment, h0, hdec, hpr, hfr] at h
            right
            exact h.symm
          · by_cases henc : menv.encodeRc = 0
            · simp [modalSegment, h0, hdec, hpr, hfr, henc] at h
            · simp [modalSegment, h0, hdec, hpr, hfr, henc] at h
  · intro h0 hdec hpr hfr henc
    simp [modalSegment, h0, hdec, hpr, hfr, henc]
  · intro h0 hdec hext hfr hpr henc
    simp [runpodSegment, h0, hdec, hext, hfr, hpr, henc]
  · intro h
    by_cases h0 : renv.request.getD ("") = ""
    · simp [runpodSegment, h0] at h
      left
      exact h.symm
    · cases hdec : renv.decodeOk
      · simp [runpodSegment, h0, hdec] at h
      · cases hext : renv.extractOk
        · simp [runpodSegment, h0, hdec, hext] at h
        · by_cases hfr : renv.frames = []
          · simp [runpodSegment, h0, hdec, hext, hfr] at h
            right
            left
            exact h.symm
          · cases hpr : renv.probe with
            | none => simp [runpodSegment, h0, hdec, hext, hfr, hpr] at h
            | some fpsv =>
              by_cases henc : renv.encodeRc = 0
              · simp [runpodSegment, h0, hdec, hext, hfr, hpr, henc] at h
              · simp [runpodSegment, h0, hdec, hext, hfr, hpr, henc] at h
                right
                right
                exact h.symm

/-- C3 witness: concrete requests reaching a failing encoder — the
modal handler raises, the runpod handler returns the error response. -/
theorem C3_w :
    (modalSegment ⟨some ("x"), true, some 25, [1, 2], 3, 3, 2, "err!", ""⟩
        (fun c => c)).1
      = Outcome.raised ("ffmpeg failed: " ++ last500 ("err!")) ∧
    (runpodSegment ⟨some ("x"), true, true, [1, 2], some 25, 2, "bad!", ""⟩).1
      = Outcome.resp
          (RunpodResp.err ("ffmpeg encode failed: " ++ last500 ("bad!"))) :=
  ⟨(C3_amended ⟨some ("x"), true, some 25, [1, 2], 3, 3, 2, "err!", ""⟩
      ⟨some ("x"), true, true, [1, 2], some 25, 2, "bad!", ""⟩
      (fun c => c) ("m") 25 25).2.1
      (by decide) rfl rfl (by decide) (by decide),
   (C3_amended ⟨some ("x"), true, some 25, [1, 2], 3, 3, 2, "err!", ""⟩
      ⟨some ("x"), true, true, [1, 2], some 25, 2, "bad!", ""⟩
      (fun c => c) ("m") 25 25).2.2.1
      (by decide) rfl rfl (by decide) rfl (by decide)⟩

/-!
## Claim C8

The spec asserts that a non-zero encode exit yields an `error` response
carrying the stderr suffix, with no `mask_video_base64` key. That is
what `runpod_sam2.py` does (lines 154-156), but `modal_sam2.py` instead
raises `RuntimeError(f"ffmpeg failed: {result.stderr[-500:]}")`
(lines 221-223): its caller receives no response dictionary at all.
-/

/-- C8 counterexample: in the modal wrapper a failing encode raises;
no `{"error": ...}` response is produced. -/
theorem C8_cex :
    (modalSegment ⟨some ("vid"), true, some 12, [3, 4], 5, 5, 2, "encode exploded", ""⟩
        (fun c => c)).1
      = Outcome.raised ("ffmpeg failed: encode exploded") := by
  decide

/-- C8 (amended): when the final encode exits non-zero, the runpod
handler returns an error response whose text is
`"ffmpeg encode failed: "` followed by the last 500 characters of the
encoder's stderr, and that response is the `err` form, never the
success form carrying `mask_video_base64`; the modal handler instead
raises `RuntimeError` whose message carries the same stderr suffix, so
its caller receives no response dictionary from the handler. -/
theorem C8_amended (renv : RunpodEnv) (menv : ModalEnv)
    (wk : List Nat → List Nat) (rfps mfps : Nat) (b : String) (n f : Nat)
    (hr1 : renv.request.getD ("") ≠ "") (hr2 : renv.decodeOk = true)
    (hr3 : renv.extractOk = true) (hr4 : renv.frames ≠ [])
    (hr5 : renv.probe = some rfps) (hr6 : renv.encodeRc ≠ 0)
    (hm1 : menv.request.getD ("") ≠ "") (hm2 : menv.decodeOk = true)
    (hm3 : menv.probe = some mfps) (hm4 : menv.frames ≠ [])
    (hm5 : menv.encodeRc ≠ 0) :
    (runpodSegment renv).1
      = Outcome.resp
          (RunpodResp.err ("ffmpeg encode failed: " ++ last500 renv.encodeStderr)) ∧
    (runpodSegment renv).1 ≠ Outcome.resp (RunpodResp.ok b n f) ∧
    (modalSegment menv wk).1
      = Outcome.raised ("ffmpeg failed: " ++ last500 menv.encodeStderr) := by
  have h1 : (runpodSegment renv).1
      = Outcome.resp
          (RunpodResp.err ("ffmpeg encode failed: " ++ last500 renv.encodeStderr)) := by
    simp [runpodSegment, hr1, hr2, hr3, hr4, hr5, hr6]
  refine ⟨h1, ?_, ?_⟩
  · rw [h1]
    intro hcontra
    simp at hcontra
  · simp [modalSegment, hm1, hm2, hm3, hm4, hm5]

/-- C8 witness: concrete failing-encode requests for both wrappers. -/
theorem C8_w :
    (runpodSegment ⟨some ("y"), true, true, [9], some 10, 3, "zz", ""⟩).1
      = Outcome.resp
          (RunpodResp.err ("ffmpeg encode failed: " ++ last500 ("zz"))) ∧
    (runpodSegment ⟨some ("y"), true, true, [9], some 10, 3, "zz", ""⟩).1
      ≠ Outcome.resp (RunpodResp.ok ("mv") 1 10) ∧
    (modalSegment ⟨some ("y"), true, some 10, [9], 2, 2, 3, "ww", ""⟩
        (fun c => c)).1
      = Outcome.raised ("ffmpeg failed: " ++ last500 ("ww")) :=
  C8_amended ⟨some ("y"), true, true, [9], some 10, 3, "zz", ""⟩
    ⟨some ("y"), true, some 10, [9], 2, 2, 3, "ww", ""⟩
    (fun c => c) 10 10 ("mv") 1 10
    (by decide) rfl rfl (by decide) rfl (by decide)
    (by decide) rfl rfl (by decide) (by decide)

/-!
## Claim C9

Missing or empty `video_base64` is rejected immediately by both
handlers, with the empty effect trace: no base64 decode, no temp
artifacts, no extraction, no inference, no encode.
-/

/-- C9: whenever the `video_base64` field is absent or empty, both
handlers return exactly the `{"error": "No video_base64 provided"}`
response with an empty effect trace (no decode, no temp dir, no probe,
no extraction, no worker run, no encode). -/
theorem C9_thm (menv : ModalEnv) (renv : RunpodEnv)
    (wk : List Nat → List Nat)
    (hm : menv.request.getD ("") = "") (hr : renv.request.getD ("") = "") :
    modalSegment menv wk
      = (Outcome.resp (ModalResp.err ("No video_base64 provided")), []) ∧
    runpodSegment renv
      = (Outcome.resp (RunpodResp.err ("No video_base64 provided")), []) := by
  constructor
  · simp [modalSegment, hm]
  · simp [runpodSegment, hr]

/-- C9 witness: one request with the key absent and one with the empty
string. -/
theorem C9_w :
    modalSegment ⟨none, true, some 30, [1], 2, 2, 0, "", "m"⟩ (fun c => c)
      = (Outcome.resp (ModalResp.err ("No video_base64 provided")), []) ∧
    runpodSegment ⟨some (""), true, true, [1], some 30, 0, "", "m"⟩
      = (Outcome.resp (RunpodResp.err ("No video_base64 provided")), []) :=
  C9_thm ⟨none, true, some 30, [1], 2, 2, 0, "", "m"⟩
    ⟨some (""), true, true, [1], some 30, 0, "", "m"⟩ (fun c => c) rfl rfl

/-!
## Claim C10

Both endpoints strip everything up to and including the first comma of
`video_base64` before decoding, whatever the discarded prefix contains;
a comma-free payload is decoded unchanged.
-/

theorem afterFirstComma_append (p sfx : List Char) (hp : ',' ∉ p) :
    afterFirstComma (p ++ ',' :: sfx) = sfx := by
  induction p with
  | nil => simp [afterFirstComma]
  | cons c rest ih =>
    have hc : c ≠ ',' := by
      intro h
      exact hp (by simp [h])
    simp only [List.cons_append, afterFirstComma, if_neg hc]
    exact ih (fun h => hp (List.mem_cons_of_mem c h))

/-- C10: for every payload of the form `prefixPart ++ "," ++ rest` with
a comma-free `prefixPart` — whether or not it is a data-URL header —
both endpoints keep exactly `rest`; and a payload without a comma is
kept unchanged by both. -/
theorem C10_thm (p sfx l : List Char) (hp : ',' ∉ p) (hl : ',' ∉ l) :
    stripDataUrlModal (p ++ ',' :: sfx) = sfx ∧
    stripDataUrlRunpod (p ++ ',' :: sfx) = sfx ∧
    stripDataUrlModal l = l ∧
    stripDataUrlRunpod l = l := by
  have hmem : ',' ∈ p ++ ',' :: sfx :=
    List.mem_append_right _ (List.mem_cons_self ',' sfx)
  have h1 : stripDataUrlModal (p ++ ',' :: sfx) = sfx := by
    unfold stripDataUrlModal
    rw [if_pos hmem]
    exact afterFirstComma_append p sfx hp
  have h2 : stripDataUrlModal l = l := by
    unfold stripDataUrlModal
    rw [if_neg hl]
  exact ⟨h1, h1, h2, h2⟩

/-- C10 witness: a data-URL-prefixed payload and a bare payload. -/
theorem C10_w :
    stripDataUrlModal (("data:video/mp4;base64").toList ++ ',' :: ("QUJD").toList)
      = ("QUJD").toList ∧
    stripDataUrlRunpod (("data:video/mp4;base64").toList ++ ',' :: ("QUJD").toList)
      = ("QUJD").toList ∧
    stripDataUrlModal (("QUJD").toList) = ("QUJD").toList ∧
    stripDataUrlRunpod (("QUJD").toList) = ("QUJD").toList :=
  C10_thm (("data:video/mp4;base64").toList) (("QUJD").toList) (("QUJD").toList)
    (by decide) (by decide)
